import Mathlib

/-!
Verification development for the osm-live-updates change application engine.

The C++ sources are shallowly embedded as executable Lean definitions:
`std::set<long long>` is modelled as a list kept sorted and duplicate-free by
ordered insertion (`insSet`), mirroring the iteration order of `std::set`;
strings are Lean `String`s manipulated through their character lists; fallible
code returns `Except`; the SPARQL endpoint and the HTTP transport are
abstracted as oracles supplying the already-decoded responses that the code
consumes.  Machine integers (`long long`) are modelled as `Int`, with the
narrowing conversion to `int` made explicit where the source performs it.
-/

/-! ## Generic set and batching machinery

`doInBatches` (OsmChangeHandler.cpp, lines 40-51) copies a `std::set` into a
vector, cuts it into consecutive chunks of at most `elementsPerBatch` elements
and invokes the callback once per chunk.  `chunkListFuel` is the chunking part,
written with explicit fuel so that it is structurally recursive (the fuel
`l.length` suffices for every `k ≥ 1`; all call sites in the source use
`k ∈ {64, 32, 21, 32}`; for `k = 0` the C++ loop would not terminate). -/

def chunkListFuel {α : Type} : Nat → Nat → List α → List (List α)
  | 0, _, _ => []
  | _ + 1, _, [] => []
  | fuel + 1, k, a :: as => (a :: as).take k :: chunkListFuel fuel k ((a :: as).drop k)

/-- Cut a list into consecutive chunks of at most `k` elements. -/
def chunkList {α : Type} (k : Nat) (l : List α) : List (List α) :=
  chunkListFuel l.length k l

/-- Ordered insertion into a sorted duplicate-free list: the model of
`std::set<long long>::insert`. -/
def insSet (x : Int) : List Int → List Int
  | [] => [x]
  | y :: ys => if x < y then x :: y :: ys else if x = y then y :: ys else y :: insSet x ys

/-- The model of `set.insert(other.begin(), other.end())`: insert every element
of `t` into `s`. -/
def setUnion (s t : List Int) : List Int :=
  t.foldl (fun acc x => insSet x acc) s

/-! ## Character-level string helpers

The C++ code inspects strings with `starts_with`, `substr` and
`std::regex_search`/`boost::regex_search` over fixed patterns.  These are
embedded over `List Char`, which the kernel can evaluate. -/

/-- Model of `std::string::starts_with`. -/
def strStartsWith (s p : String) : Bool :=
  p.toList.isPrefixOf s.toList

/-- Model of `std::string::substr(n)`. -/
def strDrop (s : String) (n : Nat) : String :=
  (s.toList.drop n).asString

/-- The character class `\d` of the regexes used by the source. -/
def isDigitCh (c : Char) : Bool :=
  decide ('0' ≤ c) && decide (c ≤ '9')

/-- Numeric value of a digit run (what `std::stoll` computes on it). -/
def natOfDigits (ds : List Char) : Nat :=
  ds.foldl (fun a c => 10 * a + (c.toNat - 48)) 0

/-- Try to match, at the head of `cs`, one fixed pattern followed by a
non-empty digit run (greedy, as `(\d+)` is), returning the run's value. -/
def matchIdAt (pat : List Char) (cs : List Char) : Option Nat :=
  if pat.isPrefixOf cs then
    let ds := (cs.drop pat.length).takeWhile isDigitCh
    if ds = [] then none else some (natOfDigits ds)
  else none

/-- Try each pattern of `pats`, in order, at the head of `cs`. -/
def matchFirst (pats : List (List Char)) (cs : List Char) : Option Nat :=
  match pats with
  | [] => none
  | p :: ps =>
    match matchIdAt p cs with
    | some n => some n
    | none => matchFirst ps cs

/-- Leftmost match of `(pat1|pat2|…)(\d+)` in a character list: the semantics
of `regex_search` with the id-extraction patterns of the source. -/
def findId (pats : List (List Char)) : List Char → Option Nat
  | [] => none
  | c :: cs =>
    match matchFirst pats (c :: cs) with
    | some n => some n
    | none => findId pats cs

/-- Split a line on whitespace runs, dropping empty tokens: used to model the
regex `(\S+)\s+(\S+)\s+(\S+)` of `getElementsFromTriple`. -/
def splitWSAux (cur : List Char) : List Char → List (List Char)
  | [] => if cur = [] then [] else [cur.reverse]
  | c :: cs =>
    if c.isWhitespace then
      if cur = [] then splitWSAux [] cs else cur.reverse :: splitWSAux [] cs
    else splitWSAux (c :: cur) cs

/-- Model of `getElementsFromTriple` (OsmChangeHandler.cpp, lines 520-530):
the first three whitespace-separated tokens of the line, or failure. -/
def tokens3 (line : String) : Option (String × String × String) :=
  match splitWSAux [] line.toList with
  | a :: b :: c :: _ => some (a.asString, b.asString, c.asString)
  | _ => none

/-! ## Engine constants (OsmChangeHandler.cpp, lines 32-36) -/

/-- The maximum number of triples that can be in a query to the QLever
endpoint (OsmChangeHandler.cpp, line 33). -/
def MAX_TRIPLE_COUNT_PER_QUERY : Nat := 64

def DELETE_TRIPLES_PER_WAY : Nat := 3

def DELETE_TRIPLES_PER_NODE : Nat := 2

def DELETE_TRIPLES_PER_RELATION : Nat := 2

/-! ## Change-set state and endpoint oracle -/

/-- The mutable id-set fields of `OsmChangeHandler` (`_createdNodes`,
`_modifiedNodes`, …).  Each `std::set<long long>` is modelled as a sorted
duplicate-free `List Int` (see `insSet`). -/
structure OsmChangeHandlerState where
  createdNodes : List Int
  modifiedNodes : List Int
  deletedNodes : List Int
  createdWays : List Int
  modifiedWays : List Int
  deletedWays : List Int
  createdRelations : List Int
  modifiedRelations : List Int
  deletedRelations : List Int
  waysToUpdateGeometry : List Int
  relationsToUpdateGeometry : List Int
  referencedNodes : List Int
  referencedWays : List Int
  referencedRelations : List Int
deriving DecidableEq

/-- Oracle for the typed fetch methods of `OsmDataFetcher` (OsmDataFetcher.cpp):
each field maps the id batch sent in the SPARQL query to the list of ids the
fetcher decodes from the endpoint's response, in response order. -/
structure OsmDataFetcher where
  fetchWaysReferencingNodes : List Int → List Int
  fetchRelationsReferencingNodes : List Int → List Int
  fetchRelationsReferencingWays : List Int → List Int
  fetchRelationsReferencingRelations : List Int → List Int
  fetchRelationMembersWay : List Int → List Int
  fetchRelationMembersNode : List Int → List Int
  fetchWaysMembers : List Int → List Int

/-- One interaction of the engine with the `SparqlWrapper` client: the method
invoked on it.  `runQuery` and `clearCache` each dispatch one HTTP request to
the endpoint; `setQuery` and `setPrefixes` only fill the client's buffers. -/
inductive ClientOp where
  | setQuery
  | setPrefixes
  | runQuery
  | clearCache
deriving DecidableEq

/-- The client ops of one fetcher call: every `OsmDataFetcher::fetch*` sets
the query, sets the prefixes and then runs the query. -/
def fetchOps : List ClientOp := [ClientOp.setQuery, ClientOp.setPrefixes, ClientOp.runQuery]

/-- The batches `doInBatches` forms from a set at the standard batch size
`MAX_TRIPLE_COUNT_PER_QUERY`. -/
def batchesOf (s : List Int) : List (List Int) :=
  chunkList MAX_TRIPLE_COUNT_PER_QUERY s

/-- Client ops of a batched fetch: one `fetchOps` block per batch. -/
def opsFor (bs : List (List Int)) : List ClientOp :=
  (bs.map (fun _ => fetchOps)).flatten

/-- The common loop body shape of the closure phases: for every batch in `bs`,
obtain `f batch` from the endpoint and insert every returned id that is not
excluded by `excl` into the accumulating set. -/
def collectInto (f : List Int → List Int) (excl : Int → Bool) (bs : List (List Int))
    (init : List Int) : List Int :=
  bs.foldl (fun acc batch => (f batch).foldl (fun a w => if excl w then a else insSet w a) acc) init


/-! ## Phase 3 — `OsmChangeHandler::getIdsForGeometryUpdate`
(OsmChangeHandler.cpp, lines 248-307), transcribed step by step. -/

/-- Step 1 (lines 249-261): if `_modifiedNodes` is non-empty, batch it, fetch
the ways referencing each batch and insert every returned way id not contained
in `_modifiedWays` into `_waysToUpdateGeometry`. -/
def geoStep1Ways (odf : OsmDataFetcher) (st : OsmChangeHandlerState) : List Int :=
  if st.modifiedNodes = [] then st.waysToUpdateGeometry
  else
    collectInto odf.fetchWaysReferencingNodes (fun wayId => decide (wayId ∈ st.modifiedWays))
      (batchesOf st.modifiedNodes) st.waysToUpdateGeometry

/-- Step 2 (lines 263-275): if `_modifiedNodes` is non-empty, batch it, fetch
the relations referencing each batch and insert every returned relation id not
contained in `_modifiedRelations` into `_relationsToUpdateGeometry`. -/
def geoStep2Rels (odf : OsmDataFetcher) (st : OsmChangeHandlerState) : List Int :=
  if st.modifiedNodes = [] then st.relationsToUpdateGeometry
  else
    collectInto odf.fetchRelationsReferencingNodes (fun relId => decide (relId ∈ st.modifiedRelations))
      (batchesOf st.modifiedNodes) st.relationsToUpdateGeometry

/-- The local set `updatedWays` of lines 277-279: the union of `_modifiedWays`
and `_waysToUpdateGeometry` as updated by step 1. -/
def geoUpdatedWays (odf : OsmDataFetcher) (st : OsmChangeHandlerState) : List Int :=
  setUnion (setUnion [] st.modifiedWays) (geoStep1Ways odf st)

/-- Step 3 (lines 280-292): if `updatedWays` is non-empty, the code batches
`_modifiedWays` (not `updatedWays`), fetches the relations referencing each
batch and inserts every returned relation id not in `_modifiedRelations` into
`_relationsToUpdateGeometry`. -/
def geoStep3Rels (odf : OsmDataFetcher) (st : OsmChangeHandlerState) : List Int :=
  if geoUpdatedWays odf st = [] then geoStep2Rels odf st
  else
    collectInto odf.fetchRelationsReferencingWays (fun relId => decide (relId ∈ st.modifiedRelations))
      (batchesOf st.modifiedWays) (geoStep2Rels odf st)

/-- Step 4 (lines 294-306): if `_modifiedRelations` is non-empty, batch it,
fetch the relations referencing each batch of relations and insert every
returned relation id not in `_modifiedRelations` into
`_relationsToUpdateGeometry`. -/
def geoStep4Rels (odf : OsmDataFetcher) (st : OsmChangeHandlerState) : List Int :=
  if st.modifiedRelations = [] then geoStep3Rels odf st
  else
    collectInto odf.fetchRelationsReferencingRelations (fun relId => decide (relId ∈ st.modifiedRelations))
      (batchesOf st.modifiedRelations) (geoStep3Rels odf st)

/-- `OsmChangeHandler::getIdsForGeometryUpdate`: the state after the four
steps, paired with the sequence of SPARQL-client operations they dispatch. -/
def getIdsForGeometryUpdate (odf : OsmDataFetcher) (st : OsmChangeHandlerState) :
    OsmChangeHandlerState × List ClientOp :=
  ({ st with
      waysToUpdateGeometry := geoStep1Ways odf st,
      relationsToUpdateGeometry := geoStep4Rels odf st },
   (if st.modifiedNodes = [] then [] else opsFor (batchesOf st.modifiedNodes))
     ++ (if st.modifiedNodes = [] then [] else opsFor (batchesOf st.modifiedNodes))
     ++ (if geoUpdatedWays odf st = [] then [] else opsFor (batchesOf st.modifiedWays))
     ++ (if st.modifiedRelations = [] then [] else opsFor (batchesOf st.modifiedRelations)))

/-! ## Phase 4 — reference closure
(`getReferencedRelations` / `getReferencedWays` / `getReferencedNodes`,
OsmChangeHandler.cpp, lines 309-384). -/

/-- Modelled from the spec (the class header with the membership helpers is
not under src/): `nodeInChangeFile(id)` holds iff the id occurs in the change
file, i.e. in `created ∪ modified ∪ deleted` of the node kind. -/
def nodeInChangeFile (st : OsmChangeHandlerState) (id : Int) : Bool :=
  decide (id ∈ st.createdNodes) || decide (id ∈ st.modifiedNodes) || decide (id ∈ st.deletedNodes)

/-- `OsmChangeHandler::getReferencedRelations` (lines 309-325). -/
def getReferencedRelations (odf : OsmDataFetcher) (st : OsmChangeHandlerState) :
    OsmChangeHandlerState × List ClientOp :=
  if st.relationsToUpdateGeometry = [] then (st, [])
  else
    ({ st with
        referencedRelations :=
          collectInto odf.fetchRelationsReferencingRelations
            (fun relId =>
              decide (relId ∈ st.relationsToUpdateGeometry) || decide (relId ∈ st.createdRelations)
                || decide (relId ∈ st.modifiedRelations))
            (batchesOf st.relationsToUpdateGeometry) st.referencedRelations },
     opsFor (batchesOf st.relationsToUpdateGeometry))

/-- `OsmChangeHandler::getReferencedWays` (lines 327-346). -/
def getReferencedWays (odf : OsmDataFetcher) (st : OsmChangeHandlerState) :
    OsmChangeHandlerState × List ClientOp :=
  let relationsToFetchWaysFor := setUnion (setUnion [] st.referencedRelations) st.relationsToUpdateGeometry
  if relationsToFetchWaysFor = [] then (st, [])
  else
    ({ st with
        referencedWays :=
          collectInto odf.fetchRelationMembersWay
            (fun wayId =>
              decide (wayId ∈ st.waysToUpdateGeometry) || decide (wayId ∈ st.createdWays)
                || decide (wayId ∈ st.modifiedWays))
            (batchesOf relationsToFetchWaysFor) st.referencedWays },
     opsFor (batchesOf relationsToFetchWaysFor))

/-- `OsmChangeHandler::getReferencedNodes` (lines 348-384): first the node
members of `referencedRelations ∪ relationsToUpdateGeometry`, then the node
members of `referencedWays ∪ waysToUpdateGeometry`, each filtered through
`nodeInChangeFile`. -/
def getReferencedNodes (odf : OsmDataFetcher) (st : OsmChangeHandlerState) :
    OsmChangeHandlerState × List ClientOp :=
  let relationsToFetchNodesFor := setUnion (setUnion [] st.referencedRelations) st.relationsToUpdateGeometry
  let afterRels :=
    if relationsToFetchNodesFor = [] then st.referencedNodes
    else
      collectInto odf.fetchRelationMembersNode (nodeInChangeFile st)
        (batchesOf relationsToFetchNodesFor) st.referencedNodes
  let opsRels :=
    if relationsToFetchNodesFor = [] then [] else opsFor (batchesOf relationsToFetchNodesFor)
  let waysToFetchNodesFor := setUnion (setUnion [] st.referencedWays) st.waysToUpdateGeometry
  let afterWays :=
    if waysToFetchNodesFor = [] then afterRels
    else
      collectInto odf.fetchWaysMembers (nodeInChangeFile st)
        (batchesOf waysToFetchNodesFor) afterRels
  let opsWays :=
    if waysToFetchNodesFor = [] then [] else opsFor (batchesOf waysToFetchNodesFor)
  ({ st with referencedNodes := afterWays }, opsRels ++ opsWays)

/-! ## Phase 5 — dummy objects (OsmChangeHandler.cpp, lines 386-421)

`createDummyNodes` batch-fetches node locations (one query per batch of
`_referencedNodes`); `createDummyWays` and `createDummyRelations` issue one
fetch per referenced way resp. relation.  Only their client operations matter
for the run trace; the XML they append goes to the scratch files. -/

def createDummyNodesOps (st : OsmChangeHandlerState) : List ClientOp :=
  opsFor (batchesOf st.referencedNodes)

def createDummyWaysOps (st : OsmChangeHandlerState) : List ClientOp :=
  (st.referencedWays.map (fun _ => fetchOps)).flatten

def createDummyRelationsOps (st : OsmChangeHandlerState) : List ClientOp :=
  (st.referencedRelations.map (fun _ => fetchOps)).flatten

/-! ## Phase 7(a) — `OsmChangeHandler::deleteElementsFromDatabase`
(OsmChangeHandler.cpp, lines 475-513).  Each per-kind union of deleted and
modified ids is batched at `MAX_TRIPLE_COUNT_PER_QUERY / DELETE_TRIPLES_PER_*`;
for each batch a delete query is written and buffered on the client (the
`runQuery` dispatch is commented out in the source). -/

def nodesToDelete (st : OsmChangeHandlerState) : List Int :=
  setUnion (setUnion [] st.deletedNodes) st.modifiedNodes

def waysToDelete (st : OsmChangeHandlerState) : List Int :=
  setUnion (setUnion [] st.deletedWays) st.modifiedWays

def relationsToDelete (st : OsmChangeHandlerState) : List Int :=
  setUnion (setUnion [] st.deletedRelations) st.modifiedRelations

def nodeDeleteBatches (st : OsmChangeHandlerState) : List (List Int) :=
  chunkList (MAX_TRIPLE_COUNT_PER_QUERY / DELETE_TRIPLES_PER_NODE) (nodesToDelete st)

def wayDeleteBatches (st : OsmChangeHandlerState) : List (List Int) :=
  chunkList (MAX_TRIPLE_COUNT_PER_QUERY / DELETE_TRIPLES_PER_WAY) (waysToDelete st)

def relationDeleteBatches (st : OsmChangeHandlerState) : List (List Int) :=
  chunkList (MAX_TRIPLE_COUNT_PER_QUERY / DELETE_TRIPLES_PER_RELATION) (relationsToDelete st)

/-- Client ops of `deleteElementsFromDatabase`: per batch, `setQuery` then
`setPrefixes`; no `runQuery` (line 485, 498 and 511 are commented out). -/
def deleteElementsOps (st : OsmChangeHandlerState) : List ClientOp :=
  ((nodeDeleteBatches st).map (fun _ => [ClientOp.setQuery, ClientOp.setPrefixes])).flatten
    ++ ((wayDeleteBatches st).map (fun _ => [ClientOp.setQuery, ClientOp.setPrefixes])).flatten
    ++ ((relationDeleteBatches st).map (fun _ => [ClientOp.setQuery, ClientOp.setPrefixes])).flatten

/-! ## Phase 7(b) — `OsmChangeHandler::filterRelevantTriples`
(OsmChangeHandler.cpp, lines 570-641). -/

/-- The three `*ToInsert` sets computed at lines 574-586. -/
structure InsertSets where
  nodes : List Int
  ways : List Int
  rels : List Int

def insertSetsOf (st : OsmChangeHandlerState) : InsertSets :=
  { nodes := setUnion (setUnion [] st.createdNodes) st.modifiedNodes,
    ways := setUnion (setUnion (setUnion [] st.createdWays) st.modifiedWays) st.waysToUpdateGeometry,
    rels := setUnion (setUnion (setUnion [] st.createdRelations) st.modifiedRelations)
      st.relationsToUpdateGeometry }

/-- `getIdFromTriple(line, "node")` (lines 532-542): leftmost occurrence of
`(?:osmnode:|osm_node_)(\d+)` anywhere in the line. -/
def nodeIdOfLine (line : String) : Option Nat :=
  findId ["osmnode:".toList, "osm_node_".toList] line.toList

/-- `getIdFromTriple(line, "way")` (lines 544-553). -/
def wayIdOfLine (line : String) : Option Nat :=
  findId ["osmway:".toList, "osm_wayarea_".toList] line.toList

/-- `getIdFromTriple(line, "relation")` (lines 555-564). -/
def relIdOfLine (line : String) : Option Nat :=
  findId ["osmrel:".toList, "osm_relarea_".toList] line.toList

/-- One iteration of the `while (std::getline(…))` loop of
`filterRelevantTriples` (lines 593-638).  `mem` is the `relevantMemberIds`
set; the result is whether the line is written to the triples file, together
with the updated `relevantMemberIds`.  `std::stoll` raises `out_of_range` on
digit runs of value at least `2^63`, which is modelled as an error. -/
def processLine (ins : InsertSets) (mem : List String) (line : String) :
    Except String (Bool × List String) :=
  if strStartsWith line "@" then Except.ok (false, mem)
  else
    match tokens3 line with
    | none => Except.error ("Cant split triple: " ++ line)
    | some (s, p, o) =>
      if strStartsWith s "osmnode:" || strStartsWith s "osm2rdfgeom:osm_node_" then
        match nodeIdOfLine line with
        | none => Except.error ("Cant get id for element: node from triple: " ++ line)
        | some n =>
          if n < 2 ^ 63 then
            if (n : Int) ∈ ins.nodes then Except.ok (true, mem) else Except.ok (false, mem)
          else Except.error "stoll: out_of_range"
      else if strStartsWith s "osmway:" || strStartsWith s "osm2rdfgeom:osm_wayarea_" then
        match wayIdOfLine line with
        | none => Except.error ("Cant get id for element: way from triple: " ++ line)
        | some n =>
          if n < 2 ^ 63 then
            if (n : Int) ∈ ins.ways then
              Except.ok (true, if p = "osmway:node" then (if o ∈ mem then mem else o :: mem) else mem)
            else Except.ok (false, mem)
          else Except.error "stoll: out_of_range"
      else if strStartsWith s "osmrel:" || strStartsWith s "osm2rdfgeom:osm_relarea_" then
        match relIdOfLine line with
        | none => Except.error ("Cant get id for element: relation from triple: " ++ line)
        | some n =>
          if n < 2 ^ 63 then
            if (n : Int) ∈ ins.rels then
              Except.ok (true, if p = "osmrel:member" then (if o ∈ mem then mem else o :: mem) else mem)
            else Except.ok (false, mem)
          else Except.error "stoll: out_of_range"
      else if s ∈ mem then Except.ok (true, mem)
      else Except.ok (false, mem)

/-- The whole loop of `filterRelevantTriples` over the decompressed converter
output: the lines written to the triples file, in order. -/
def filterRelevantTriples (ins : InsertSets) : List String → List String →
    Except String (List String)
  | _, [] => Except.ok []
  | mem, line :: rest =>
    match processLine ins mem line with
    | Except.error e => Except.error e
    | Except.ok (kept, mem1) =>
      match filterRelevantTriples ins mem1 rest with
      | Except.error e => Except.error e
      | Except.ok out => Except.ok (if kept then line :: out else out)

/-! ## Phase 7(d) — `OsmChangeHandler::createAndRunInsertQuery`
(OsmChangeHandler.cpp, lines 734-768): the filtered triples are batched at
`MAX_TRIPLE_COUNT_PER_QUERY`; per batch the client's prefixes and query are
set; the `runQuery` dispatch at line 761 is commented out. -/

def createAndRunInsertQueryOps (triples : List String) : List ClientOp :=
  ((chunkList MAX_TRIPLE_COUNT_PER_QUERY triples).map
      (fun _ => [ClientOp.setPrefixes, ClientOp.setQuery])).flatten

/-! ## `OsmChangeHandler::run` (OsmChangeHandler.cpp, lines 81-124)

The phases after change-file parsing, as a trace of SPARQL-client operations.
`st` is the state after `processChangeFile` (phases 1-2, which only read the
change XML and write scratch files, issuing no client operation), and
`convLines` are the turtle lines produced by the converter in phase 6
(`sortFile` and `convert` issue no client operation either).  `run` never
invokes `SparqlWrapper::clearCache`. -/
def runOps (odf : OsmDataFetcher) (st : OsmChangeHandlerState) (convLines : List String) :
    Except String (List ClientOp) :=
  let r1 := getIdsForGeometryUpdate odf st
  let r2 := getReferencedRelations odf r1.1
  let r3 := getReferencedWays odf r2.1
  let r4 := getReferencedNodes odf r3.1
  let st4 := r4.1
  match filterRelevantTriples (insertSetsOf st4) [] convLines with
  | Except.error e => Except.error e
  | Except.ok kept =>
    Except.ok (r1.2 ++ r2.2 ++ r3.2 ++ r4.2
      ++ createDummyNodesOps st4 ++ createDummyWaysOps st4 ++ createDummyRelationsOps st4
      ++ deleteElementsOps st4 ++ createAndRunInsertQueryOps kept)

/-! ## `HttpRequest::perform` (HttpRequest.cpp, lines 77-100)

The CURL transfer is abstracted by its outcome: whether `curl_easy_init`
produced a handle, the `CURLcode` returned by `curl_easy_perform`, and the
bytes accumulated in the write-callback buffer before the transfer ended. -/

inductive CURLcode where
  | CURLE_OK
  | CURLE_FAILED_INIT
  | CURLE_COULDNT_CONNECT
  | CURLE_OPERATION_TIMEDOUT
  | otherError (n : Nat)
deriving DecidableEq

/-- The result of `HttpRequest::perform`: on success the response body paired
with the lines printed to stderr.  If the handle is null an
`HttpRequestException` is thrown (line 91); a failing transfer (`_res !=
CURLE_OK`, lines 94-97) is only reported on stderr and the buffered data is
returned as the response. -/
def performHttp (curlHandleValid : Bool) (res : CURLcode) (bufferedData : String) :
    Except String (String × List String) :=
  if curlHandleValid then
    Except.ok (bufferedData,
      if res = CURLcode.CURLE_OK then [] else ["curl_easy_perform() failed"])
  else Except.error "Failed to initialize CURL"

/-! ## `SparqlWrapper::runQuery` response handling (SparqlWrapper.cpp, lines 90-107)

The `boost::property_tree::read_json` parse of the response body is abstracted
as a `JsonParse` value: either the parse failed, or it produced a tree whose
top-level string fields are given.  `pt.get<std::string>("status")` and
`pt.get<std::string>("exception")` throw `ptree_bad_path` when the field is
absent; those calls are outside the `try` block, so the exception propagates
uncaught out of `runQuery`. -/

inductive JsonParse where
  | failed
  | parsed (fields : List (String × String))

inductive RunQueryError where
  | parseFailed (msg : String)
  | badPath (path : String)
  | endpointError (msg : String)
deriving DecidableEq

def lookupField (fields : List (String × String)) (key : String) : Option String :=
  (fields.find? (fun kv => kv.1 == key)).map (fun kv => kv.2)

/-- The response handling of `SparqlWrapper::runQuery`: result of lines
90-107 given the body `response` and the outcome of its JSON parse. -/
def runQueryHandleResponse (response : String) (parse : JsonParse) :
    Except RunQueryError String :=
  match parse with
  | JsonParse.failed =>
    Except.error (RunQueryError.parseFailed
      ("Could not parse response from SPARQL endpoint: " ++ response))
  | JsonParse.parsed fields =>
    match lookupField fields "status" with
    | none => Except.error (RunQueryError.badPath "status")
    | some status =>
      if status = "ERROR" then
        match lookupField fields "exception" with
        | none => Except.error (RunQueryError.badPath "exception")
        | some ex =>
          Except.error (RunQueryError.endpointError
            ("SPARQL endpoint returned status ERROR with exception: " ++ ex))
      else Except.ok response

/-! ## `OsmDataFetcher::fetchNodeLocationsAsWkt` size check
(OsmDataFetcher.cpp, lines 96-136): after decoding the WKT literals from the
response, the fetch throws when their number differs from the number of
requested ids — in either direction. -/

inductive FetchLocError where
  | tooMany (got requested : Nat)
  | tooFew (got requested : Nat)
deriving DecidableEq

/-- The size check and result of `fetchNodeLocationsAsWkt`, given the
requested id set and the WKT literals decoded from the endpoint response. -/
def fetchNodeLocationsAsWkt (nodeIds : List Int) (pointsAsWkt : List String) :
    Except FetchLocError (List String) :=
  if pointsAsWkt.length > nodeIds.length then
    Except.error (FetchLocError.tooMany pointsAsWkt.length nodeIds.length)
  else if pointsAsWkt.length < nodeIds.length then
    Except.error (FetchLocError.tooFew pointsAsWkt.length nodeIds.length)
  else Except.ok pointsAsWkt

/-! ## `OsmChangeHandler::sortFile` (OsmChangeHandler.cpp, lines 423-473)

Each line's key is the first match of `id="(\d+)` in the line, parsed with
`std::stoll` (throwing `out_of_range` for values of at least `2^63`), or `-1`
when there is no match; the `(line, key)` pairs are stored in a
`std::vector<std::pair<std::string, int>>`, so the `long long` id is narrowed
to a 32-bit `int` (C++20: reduction modulo `2^32` into `[-2^31, 2^31)`); the
lines are then sorted ascending by that stored key and written back. -/

/-- C++20 narrowing conversion from `long long` to `int`. -/
def toInt32 (n : Int) : Int :=
  (n + 2 ^ 31) % 2 ^ 32 - 2 ^ 31

/-- The digits matched by `id="(\d+)` in a line, as an unbounded natural. -/
def lineIdDigits (line : String) : Option Nat :=
  findId ["id=\"".toList] line.toList

/-- The `long long` id `std::stoll` parses from a line (`-1` when `id="`
followed by digits does not occur, lines 444-449). -/
def lineIdVal (line : String) : Int :=
  match lineIdDigits line with
  | none => -1
  | some n => (n : Int)

/-- The `int` key stored with the line (line 452, narrowing). -/
def lineKey (line : String) : Int :=
  toInt32 (lineIdVal line)

/-- Whether `std::stoll` succeeds on the line's digits. -/
def lineKeyOk (line : String) : Bool :=
  match lineIdDigits line with
  | none => true
  | some n => decide (n < 2 ^ 63)

/-- The sort-file comparator: ascending order of the stored `int` keys. -/
def lineKeyLe (a b : String) : Prop :=
  lineKey a ≤ lineKey b

instance : DecidableRel lineKeyLe :=
  fun a b => inferInstanceAs (Decidable (lineKey a ≤ lineKey b))

instance : IsTotal String lineKeyLe :=
  ⟨fun a b => Int.le_total (lineKey a) (lineKey b)⟩

instance : IsTrans String lineKeyLe :=
  ⟨fun _ _ _ h h2 => le_trans h h2⟩

/-- `OsmChangeHandler::sortFile` on the lines of a scratch file: `none` when
`std::stoll` throws on some line, otherwise the lines sorted ascending by
their stored `int` key.  (`std::sort` guarantees a sorted permutation and
nothing more, which an insertion sort realises.) -/
def sortFile (lines : List String) : Option (List String) :=
  if lines.all lineKeyOk then some (List.insertionSort lineKeyLe lines) else none

/-! ## `OsmObjectHelper::createRelationFromReferences`
(OsmObjectHelper.cpp, lines 40-85). -/

/-- Modelled from the spec: `config/Constants.h` is not under src/; the OSM
element URI prefixes used to classify member URIs are the OpenStreetMap
object URIs, which are pairwise non-prefixing. -/
def OSM_NODE_URI : String := "https://www.openstreetmap.org/node/"

def OSM_WAY_URI : String := "https://www.openstreetmap.org/way/"

def OSM_REL_URI : String := "https://www.openstreetmap.org/relation/"

/-- The `<member type="node" …/>` reference built at line 53. -/
def nodeMemberXml (m : String × String) : String :=
  "<member type=\"node\" ref=\"" ++ strDrop m.1 OSM_NODE_URI.length
    ++ "\" role=\"" ++ m.2 ++ "\"/>"

/-- The `<member type="way" …/>` reference built at line 59. -/
def wayMemberXml (m : String × String) : String :=
  "<member type=\"way\" ref=\"" ++ strDrop m.1 OSM_WAY_URI.length
    ++ "\" role=\"" ++ m.2 ++ "\"/>"

/-- The `<member type="relation" …/>` reference built at line 65. -/
def relMemberXml (m : String × String) : String :=
  "<member type=\"relation\" ref=\"" ++ strDrop m.1 OSM_REL_URI.length
    ++ "\" role=\"" ++ m.2 ++ "\"/>"

/-- The loop of lines 47-68: walk the members once, appending each member's
XML reference to the vector of its kind (the three `starts_with` tests are
independent `if`s). -/
def relationMemberVectors (ms : List (String × String)) :
    List String × List String × List String :=
  ms.foldl
    (fun acc m =>
      let ns := if strStartsWith m.1 OSM_NODE_URI then acc.1 ++ [nodeMemberXml m] else acc.1
      let ws := if strStartsWith m.1 OSM_WAY_URI then acc.2.1 ++ [wayMemberXml m] else acc.2.1
      let rs := if strStartsWith m.1 OSM_REL_URI then acc.2.2 ++ [relMemberXml m] else acc.2.2
      (ns, ws, rs))
    ([], [], [])

/-- `OsmObjectHelper::createRelationFromReferences`: serialize a dummy
relation from the endpoint's member data `(type tag value, members)`, where a
member is `(uri, role)`. -/
def createRelationFromReferences (relationId : Int)
    (members : String × List (String × String)) : String :=
  let vecs := relationMemberVectors members.2
  "<relation id=\"" ++ toString relationId ++ "\">"
    ++ String.join vecs.1 ++ String.join vecs.2.1 ++ String.join vecs.2.2
    ++ "<tag k=\"type\" v=\"" ++ members.1 ++ "\"/></relation>"

/-! ## Concrete inputs used by the claim theorems -/

/-- The handler state with all id sets empty. -/
def emptyHandlerState : OsmChangeHandlerState :=
  ⟨[], [], [], [], [], [], [], [], [], [], [], [], [], []⟩

/-- A fetcher oracle whose every response is empty. -/
def emptyOdf : OsmDataFetcher where
  fetchWaysReferencingNodes := fun _ => []
  fetchRelationsReferencingNodes := fun _ => []
  fetchRelationsReferencingWays := fun _ => []
  fetchRelationsReferencingRelations := fun _ => []
  fetchRelationMembersWay := fun _ => []
  fetchRelationMembersNode := fun _ => []
  fetchWaysMembers := fun _ => []

/-- C1 scenario: node 1 is modified; the endpoint knows way 50 references
node 1 and relation 7 references way 50; way 50 and relation 7 are not in the
change file. -/
def c1Odf : OsmDataFetcher :=
  { emptyOdf with
      fetchWaysReferencingNodes := fun b => if b = [1] then [50] else [],
      fetchRelationsReferencingWays := fun b => if b = [50] then [7] else [] }

def c1St : OsmChangeHandlerState :=
  { emptyHandlerState with modifiedNodes := [1] }

/-- C2 scenario: relation 5 is modified; the endpoint knows relation 9
references relation 5. -/
def c2Odf : OsmDataFetcher :=
  { emptyOdf with
      fetchRelationsReferencingRelations := fun b => if b = [5] then [9] else [] }

def c2St : OsmChangeHandlerState :=
  { emptyHandlerState with modifiedRelations := [5] }

/-- C4 scenario: a change file modifying only node 10, endpoint answering
every query with an empty result, converter output empty. -/
def c4St : OsmChangeHandlerState :=
  { emptyHandlerState with modifiedNodes := [10] }

/-- C7 scenario: one modified node, way and relation. -/
def c7St : OsmChangeHandlerState :=
  { emptyHandlerState with modifiedNodes := [10], modifiedWays := [20], modifiedRelations := [30] }

def c3Line : String := "osmnode:42 geo:hasGeometry osm2rdfgeom:osm_node_42"

/-- C3 scenario: node 42 was created by the change file. -/
def c3St : OsmChangeHandlerState :=
  { emptyHandlerState with createdNodes := [42] }

def c9LineA : String := "<node id=\"2147483648\" lat=\"1.0\" lon=\"2.0\"/>"

def c9LineB : String := "<node id=\"7\" lat=\"3.0\" lon=\"4.0\"/>"

/-! ## General lemmas about the embedded machinery -/

/-- Every chunk produced by `chunkList k` has at most `k` elements. -/
theorem length_le_of_mem_chunkList {α : Type} (k : Nat) (l : List α) (b : List α)
    (h : b ∈ chunkList k l) : b.length ≤ k := by
  unfold chunkList at h
  generalize l.length = fuel at h
  induction fuel generalizing l with
  | zero => simp [chunkListFuel] at h
  | succ n ih =>
    cases l with
    | nil => simp [chunkListFuel] at h
    | cons a as =>
      simp only [chunkListFuel, List.mem_cons] at h
      rcases h with h | h
      · subst h; simp only [List.length_take]; exact Nat.min_le_left _ _
      · exact ih _ h

/-- `chunkList` of the empty list is empty (no batches, so the batch callback
is never invoked, matching the C++ loop over an empty vector). -/
theorem chunkList_nil {α : Type} (k : Nat) : chunkList k ([] : List α) = [] := rfl

theorem mem_insSet (a x : Int) (l : List Int) : a ∈ insSet x l ↔ a = x ∨ a ∈ l := by
  induction l with
  | nil => simp [insSet]
  | cons y ys ih =>
    unfold insSet
    split_ifs with h1 h2
    · simp
    · subst h2
      simp only [List.mem_cons]
      tauto
    · simp only [List.mem_cons, ih]
      tauto


theorem mem_setUnion (a : Int) (s t : List Int) : a ∈ setUnion s t ↔ a ∈ s ∨ a ∈ t := by
  induction t generalizing s with
  | nil => simp [setUnion]
  | cons x xs ih =>
    simp only [setUnion, List.foldl_cons] at *
    rw [ih (insSet x s), mem_insSet]
    simp
    tauto


theorem mem_collectInto (x : Int) (f : List Int → List Int) (excl : Int → Bool)
    (bs : List (List Int)) (init : List Int) :
    x ∈ collectInto f excl bs init ↔ x ∈ init ∨ ∃ b ∈ bs, x ∈ f b ∧ excl x = false := by
  have inner : ∀ (ws : List Int) (acc : List Int),
      x ∈ ws.foldl (fun a w => if excl w then a else insSet w a) acc ↔
        x ∈ acc ∨ (x ∈ ws ∧ excl x = false) := by
    intro ws
    induction ws with
    | nil => simp
    | cons w ws ih =>
      intro acc
      simp only [List.foldl_cons]
      rw [ih]
      by_cases hw : excl w
      · simp only [if_pos hw, List.mem_cons]
        constructor
        · rintro (h | ⟨h1, h2⟩)
          · exact Or.inl h
          · exact Or.inr ⟨Or.inr h1, h2⟩
        · rintro (h | ⟨h1 | h1, h2⟩)
          · exact Or.inl h
          · subst h1; rw [h2] at hw; simp at hw
          · exact Or.inr ⟨h1, h2⟩
      · simp only [if_neg hw, mem_insSet, List.mem_cons]
        constructor
        · rintro (⟨h | h⟩ | ⟨h1, h2⟩)
          · subst h
            simp only [Bool.not_eq_true] at hw
            exact Or.inr ⟨Or.inl rfl, hw⟩
          · exact Or.inl h
          · exact Or.inr ⟨Or.inr h1, h2⟩
        · rintro (h | ⟨h1 | h1, h2⟩)
          · exact Or.inl (Or.inr h)
          · exact Or.inl (Or.inl h1)
          · exact Or.inr ⟨h1, h2⟩
  induction bs generalizing init with
  | nil => simp [collectInto]
  | cons b bs ih =>
    simp only [collectInto, List.foldl_cons] at *
    simp only [ih, inner]
    constructor
    · rintro (⟨h | ⟨h1, h2⟩⟩ | ⟨b1, hb1, h1, h2⟩)
      · exact Or.inl h
      · exact Or.inr ⟨b, List.mem_cons_self b bs, h1, h2⟩
      · exact Or.inr ⟨b1, List.mem_cons_of_mem b hb1, h1, h2⟩
    · rintro (h | ⟨b1, hb1, h1, h2⟩)
      · exact Or.inl (Or.inl h)
      · rcases List.mem_cons.mp hb1 with hb | hb
        · subst hb; exact Or.inl (Or.inr ⟨h1, h2⟩)
        · exact Or.inr ⟨b1, hb, h1, h2⟩

/-! ## Claim theorems -/

/-- C7, counterexample: the maximum number of VALUES terms per query is the
constant `MAX_TRIPLE_COUNT_PER_QUERY`, and it is 64, not 1024 as claimed. -/
theorem c7_counterexample : ¬ MAX_TRIPLE_COUNT_PER_QUERY = 1024 := by decide

/-- C7 (amended): the maximum number of VALUES terms per query is
`MAX_TRIPLE_COUNT_PER_QUERY = 64`, and the phase-7 delete batching yields
node-delete batches of at most 64/2 = 32 ids, way-delete batches of at most
64/3 = 21 ids, and relation-delete batches of at most 64/2 = 32 ids. -/
theorem c7_delete_batch_bounds :
    MAX_TRIPLE_COUNT_PER_QUERY = 64 ∧
    (∀ (st : OsmChangeHandlerState) (b : List Int),
      b ∈ nodeDeleteBatches st → b.length ≤ 32) ∧
    (∀ (st : OsmChangeHandlerState) (b : List Int),
      b ∈ wayDeleteBatches st → b.length ≤ 21) ∧
    (∀ (st : OsmChangeHandlerState) (b : List Int),
      b ∈ relationDeleteBatches st → b.length ≤ 32) := by
  refine ⟨rfl, ?_, ?_, ?_⟩
  · intro st b h
    exact length_le_of_mem_chunkList _ _ _ h
  · intro st b h
    exact length_le_of_mem_chunkList _ _ _ h
  · intro st b h
    exact length_le_of_mem_chunkList _ _ _ h

/-- C7, witness: the batch bounds applied to the one-element batches of a
change set with one modified node, way and relation. -/
theorem c7_delete_batch_bounds_witness :
    ([10] : List Int).length ≤ 32 ∧ ([20] : List Int).length ≤ 21 ∧
      ([30] : List Int).length ≤ 32 :=
  ⟨c7_delete_batch_bounds.2.1 c7St [10] (by decide),
   c7_delete_batch_bounds.2.2.1 c7St [20] (by decide),
   c7_delete_batch_bounds.2.2.2 c7St [30] (by decide)⟩

/-- C1, code-bug evaluation: with node 1 modified, the endpoint reporting way
50 as referencing node 1 and relation 7 as referencing way 50, phase 3 puts
way 50 into `waysToUpdateGeometry` but leaves `relationsToUpdateGeometry`
empty: step 3 batches only `_modifiedWays` (empty here) although the guard
tests the union `updatedWays = {50}`, so relation 7 is never found. -/
theorem c1_union_bug_eval :
    (getIdsForGeometryUpdate c1Odf c1St).1.waysToUpdateGeometry = [50] ∧
    (getIdsForGeometryUpdate c1Odf c1St).1.relationsToUpdateGeometry = [] ∧
    c1Odf.fetchRelationsReferencingWays [50] = [7] := by decide

/-- C2, counterexample: with relation 5 modified and the endpoint reporting
relation 9 as referencing relation 5, phase 3 step 4 issues the
relations-referencing-relations query (the `fetchOps` client trace) and adds
relation 9 to `relationsToUpdateGeometry`, contradicting the claim that the
relation-of-relation cascade step is skipped. -/
theorem c2_counterexample :
    (getIdsForGeometryUpdate c2Odf c2St).1.relationsToUpdateGeometry = [9] ∧
    (getIdsForGeometryUpdate c2Odf c2St).2 = fetchOps := by decide

/-- C2 (amended): during phase 3 the engine does issue the
relations-referencing-relations query over the batches of
`_modifiedRelations`, and every relation id the endpoint returns for such a
batch that is not itself a modified relation enters
`relationsToUpdateGeometry`. -/
theorem c2_relation_cascade_present (odf : OsmDataFetcher) (st : OsmChangeHandlerState)
    (r : Int) (b : List Int)
    (hb : b ∈ batchesOf st.modifiedRelations)
    (hr : r ∈ odf.fetchRelationsReferencingRelations b)
    (hnm : r ∉ st.modifiedRelations) :
    r ∈ (getIdsForGeometryUpdate odf st).1.relationsToUpdateGeometry := by
  have hne : ¬ st.modifiedRelations = [] := by
    intro h
    rw [h] at hb
    simp [batchesOf, chunkList_nil] at hb
  show r ∈ geoStep4Rels odf st
  unfold geoStep4Rels
  rw [if_neg hne]
  exact (mem_collectInto r _ _ _ _).mpr (Or.inr ⟨b, hb, hr, by simp [hnm]⟩)

/-- C2, witness: the amended statement at the concrete scenario. -/
theorem c2_relation_cascade_present_witness :
    (9 : Int) ∈ (getIdsForGeometryUpdate c2Odf c2St).1.relationsToUpdateGeometry :=
  c2_relation_cascade_present c2Odf c2St 9 [5] (by decide) (by decide) (by decide)

/-- C5, code-bug evaluation: a transfer that fails with
`CURLE_COULDNT_CONNECT` under a valid CURL handle is only reported on stderr;
`HttpRequest::perform` still returns the (here empty) buffered data as a
successful response instead of raising a transport error. -/
theorem c5_transport_failure_eval :
    performHttp true CURLcode.CURLE_COULDNT_CONNECT "" =
      Except.ok ("", ["curl_easy_perform() failed"]) := by
  rfl

/-- C6, counterexample: a response body that is not JSON — such as the XML
payload of a successful SPARQL query — makes `runQuery` fail with the
parse-failure exception instead of being returned to the caller. -/
theorem c6_counterexample :
    runQueryHandleResponse "<sparql/>" JsonParse.failed =
      Except.error (RunQueryError.parseFailed
        ("Could not parse response from SPARQL endpoint: " ++ "<sparql/>")) := by
  rfl

/-- C6 (amended): a JSON body with top-level status ERROR makes the client
fail with a message carrying the exception field; a JSON body whose status is
anything else is returned unchanged; a body that does not parse as JSON also
fails (with the parse exception) rather than being returned. -/
theorem c6_envelope_handling :
    (∀ (response : String) (fields : List (String × String)) (ex : String),
        lookupField fields "status" = some "ERROR" →
        lookupField fields "exception" = some ex →
        runQueryHandleResponse response (JsonParse.parsed fields) =
          Except.error (RunQueryError.endpointError
            ("SPARQL endpoint returned status ERROR with exception: " ++ ex))) ∧
    (∀ (response : String) (fields : List (String × String)) (status : String),
        lookupField fields "status" = some status → status ≠ "ERROR" →
        runQueryHandleResponse response (JsonParse.parsed fields) = Except.ok response) ∧
    (∀ response : String,
        runQueryHandleResponse response JsonParse.failed =
          Except.error (RunQueryError.parseFailed
            ("Could not parse response from SPARQL endpoint: " ++ response))) := by
  refine ⟨?_, ?_, ?_⟩
  · intro response fields ex hst hex
    simp [runQueryHandleResponse, hst, hex]
  · intro response fields status hst hne
    simp [runQueryHandleResponse, hst, hne]
  · intro response
    rfl

/-- C6, witness: the envelope handling at concrete bodies. -/
theorem c6_envelope_handling_witness :
    runQueryHandleResponse "resp" (JsonParse.parsed [("status", "ERROR"), ("exception", "boom")]) =
      Except.error (RunQueryError.endpointError
        ("SPARQL endpoint returned status ERROR with exception: " ++ "boom")) ∧
    runQueryHandleResponse "okbody" (JsonParse.parsed [("status", "OK")]) =
      Except.ok "okbody" :=
  ⟨c6_envelope_handling.1 "resp" [("status", "ERROR"), ("exception", "boom")] "boom"
      (by decide) (by decide),
   c6_envelope_handling.2.1 "okbody" [("status", "OK")] "OK" (by decide) (by decide)⟩

/-- C8, counterexample: a well-formed response carrying one location for a
batch of two requested ids — at most one location per id — is not returned
successfully: the fetch also throws when the endpoint returns fewer results
than ids requested. -/
theorem c8_counterexample :
    fetchNodeLocationsAsWkt [1, 2] ["POINT(1 2)"] =
      Except.error (FetchLocError.tooFew 1 2) := by
  rfl

/-- C8 (amended): the node-location fetch fails with the size-mismatch error
whenever the endpoint returns more results than ids requested, and also
whenever it returns fewer; it succeeds exactly when the counts agree. -/
theorem c8_size_check (nodeIds : List Int) (points : List String) :
    (points.length = nodeIds.length →
      fetchNodeLocationsAsWkt nodeIds points = Except.ok points) ∧
    (points.length > nodeIds.length →
      fetchNodeLocationsAsWkt nodeIds points =
        Except.error (FetchLocError.tooMany points.length nodeIds.length)) ∧
    (points.length < nodeIds.length →
      fetchNodeLocationsAsWkt nodeIds points =
        Except.error (FetchLocError.tooFew points.length nodeIds.length)) := by
  refine ⟨?_, ?_, ?_⟩
  · intro h
    unfold fetchNodeLocationsAsWkt
    rw [if_neg (by omega), if_neg (by omega)]
  · intro h
    unfold fetchNodeLocationsAsWkt
    rw [if_pos h]
  · intro h
    unfold fetchNodeLocationsAsWkt
    rw [if_neg (by omega), if_pos h]

/-- C8, witness: the size check at concrete batches. -/
theorem c8_size_check_witness :
    fetchNodeLocationsAsWkt [1] ["POINT(0 0)"] = Except.ok ["POINT(0 0)"] ∧
    fetchNodeLocationsAsWkt [1, 2] ["a", "b", "c"] = Except.error (FetchLocError.tooMany 3 2) ∧
    fetchNodeLocationsAsWkt [1, 2] ["a"] = Except.error (FetchLocError.tooFew 1 2) :=
  ⟨(c8_size_check [1] ["POINT(0 0)"]).1 (by decide),
   (c8_size_check [1, 2] ["a", "b", "c"]).2.1 (by decide),
   (c8_size_check [1, 2] ["a"]).2.2 (by decide)⟩

/-- C9, counterexample: a scratch file whose first line carries id
2147483648 (which narrows to the `int` key -2147483648) and whose second line
carries id 7 is written back unchanged by `sortFile`, so the output is not in
ascending order of the parsed ids. -/
theorem c9_counterexample :
    sortFile [c9LineA, c9LineB] = some [c9LineA, c9LineB] ∧
    lineIdVal c9LineA = 2147483648 ∧ lineIdVal c9LineB = 7 ∧
    ¬ lineIdVal c9LineA ≤ lineIdVal c9LineB := by
  decide

/-- C9 (amended): whenever `sortFile` terminates normally (no id parses to a
value outside `long long`), its output is a permutation of the input lines —
none added, removed or altered — sorted in ascending order of the per-line
key: the integer parsed from the leftmost `id="…` match, `-1` when there is
none, narrowed to a 32-bit `int`. -/
theorem c9_sortFile_sorted_perm (lines out : List String)
    (h : sortFile lines = some out) :
    out.Perm lines ∧ List.Sorted lineKeyLe out := by
  unfold sortFile at h
  split_ifs at h with hall
  injection h with h
  subst h
  exact ⟨List.perm_insertionSort lineKeyLe lines, List.sorted_insertionSort lineKeyLe lines⟩

/-- C9, witness: the amended statement at a singleton file. -/
theorem c9_sortFile_sorted_perm_witness :
    ([c9LineB] : List String).Perm [c9LineB] ∧ List.Sorted lineKeyLe [c9LineB] :=
  c9_sortFile_sorted_perm [c9LineB] [c9LineB] (by decide)

/-- C10: every dummy relation serialized by `createRelationFromReferences`
lists the node members first, then the way members, then the relation members
— each group in input order — and ends with the type tag: the interleaved
input order of members of different kinds is not preserved. -/
theorem c10_relation_member_grouping (relationId : Int) (ty : String)
    (ms : List (String × String)) :
    createRelationFromReferences relationId (ty, ms) =
      "<relation id=\"" ++ toString relationId ++ "\">"
        ++ String.join ((ms.filter (fun m => strStartsWith m.1 OSM_NODE_URI)).map nodeMemberXml)
        ++ String.join ((ms.filter (fun m => strStartsWith m.1 OSM_WAY_URI)).map wayMemberXml)
        ++ String.join ((ms.filter (fun m => strStartsWith m.1 OSM_REL_URI)).map relMemberXml)
        ++ "<tag k=\"type\" v=\"" ++ ty ++ "\"/></relation>" := by
  have key : ∀ (l : List (String × String)) (a b c : List String),
      l.foldl
        (fun acc m =>
          let ns := if strStartsWith m.1 OSM_NODE_URI then acc.1 ++ [nodeMemberXml m] else acc.1
          let ws := if strStartsWith m.1 OSM_WAY_URI then acc.2.1 ++ [wayMemberXml m] else acc.2.1
          let rs := if strStartsWith m.1 OSM_REL_URI then acc.2.2 ++ [relMemberXml m] else acc.2.2
          (ns, ws, rs))
        (a, b, c) =
      (a ++ (l.filter (fun m => strStartsWith m.1 OSM_NODE_URI)).map nodeMemberXml,
       b ++ (l.filter (fun m => strStartsWith m.1 OSM_WAY_URI)).map wayMemberXml,
       c ++ (l.filter (fun m => strStartsWith m.1 OSM_REL_URI)).map relMemberXml) := by
    intro l
    induction l with
    | nil => intro a b c; simp
    | cons m l ih =>
      intro a b c
      simp only [List.foldl_cons, ih]
      by_cases h1 : strStartsWith m.1 OSM_NODE_URI <;>
        by_cases h2 : strStartsWith m.1 OSM_WAY_URI <;>
          by_cases h3 : strStartsWith m.1 OSM_REL_URI <;>
            simp [h1, h2, h3, List.filter_cons]
  unfold createRelationFromReferences relationMemberVectors
  rw [key ms [] [] []]
  simp

/-- Counting helper: a flattened list of copies of a block free of `c`
contains no `c`. -/
theorem count_flatten_const_zero {β : Type} (c : ClientOp) (blk : List ClientOp)
    (h : blk.count c = 0) (l : List β) :
    ((l.map (fun _ => blk)).flatten.count c) = 0 := by
  induction l with
  | nil => rfl
  | cons x xs ih =>
    simp only [List.map_cons, List.flatten_cons, List.count_append, h, ih]

theorem opsFor_count_clearCache (bs : List (List Int)) :
    (opsFor bs).count ClientOp.clearCache = 0 :=
  count_flatten_const_zero ClientOp.clearCache fetchOps (by decide) bs

theorem getIdsForGeometryUpdate_ops_count (odf : OsmDataFetcher)
    (st : OsmChangeHandlerState) :
    ((getIdsForGeometryUpdate odf st).2).count ClientOp.clearCache = 0 := by
  unfold getIdsForGeometryUpdate
  simp only [List.count_append]
  split_ifs <;> simp [opsFor_count_clearCache]

theorem getReferencedRelations_ops_count (odf : OsmDataFetcher)
    (st : OsmChangeHandlerState) :
    ((getReferencedRelations odf st).2).count ClientOp.clearCache = 0 := by
  unfold getReferencedRelations
  split_ifs <;> simp [opsFor_count_clearCache]

theorem getReferencedWays_ops_count (odf : OsmDataFetcher)
    (st : OsmChangeHandlerState) :
    ((getReferencedWays odf st).2).count ClientOp.clearCache = 0 := by
  unfold getReferencedWays
  dsimp only
  split_ifs <;> simp [opsFor_count_clearCache]

theorem getReferencedNodes_ops_count (odf : OsmDataFetcher)
    (st : OsmChangeHandlerState) :
    ((getReferencedNodes odf st).2).count ClientOp.clearCache = 0 := by
  unfold getReferencedNodes
  dsimp only
  simp only [List.count_append]
  split_ifs <;> simp [opsFor_count_clearCache]

theorem deleteElementsOps_count (st : OsmChangeHandlerState) (c : ClientOp)
    (h : List.count c [ClientOp.setQuery, ClientOp.setPrefixes] = 0) :
    (deleteElementsOps st).count c = 0 := by
  unfold deleteElementsOps
  simp only [List.count_append]
  rw [count_flatten_const_zero c _ h, count_flatten_const_zero c _ h,
    count_flatten_const_zero c _ h]

theorem createAndRunInsertQueryOps_count (triples : List String) (c : ClientOp)
    (h : List.count c [ClientOp.setPrefixes, ClientOp.setQuery] = 0) :
    (createAndRunInsertQueryOps triples).count c = 0 :=
  count_flatten_const_zero c [ClientOp.setPrefixes, ClientOp.setQuery] h _

/-- C4, counterexample: a successful run over a change file that modifies
node 10, against an endpoint answering every query with an empty result,
dispatches zero clear-cache requests — not exactly one. -/
theorem c4_counterexample :
    (runOps emptyOdf c4St []).toOption.map (fun tr => tr.count ClientOp.clearCache) =
      some 0 := by
  decide

/-- C4 (amended): on every run that completes, no clear-cache control request
is sent to the endpoint — `run` never invokes `SparqlWrapper::clearCache` —
and the DELETE and INSERT phases dispatch no update either: they only build
and buffer their queries (`runQuery` is commented out at their call sites). -/
theorem c4_no_clear_cache :
    (∀ (odf : OsmDataFetcher) (st : OsmChangeHandlerState) (convLines : List String)
        (tr : List ClientOp), runOps odf st convLines = Except.ok tr →
          tr.count ClientOp.clearCache = 0) ∧
    (∀ st : OsmChangeHandlerState, (deleteElementsOps st).count ClientOp.runQuery = 0) ∧
    (∀ triples : List String,
        (createAndRunInsertQueryOps triples).count ClientOp.runQuery = 0) := by
  refine ⟨?_, ?_, ?_⟩
  · intro odf st convLines tr h
    unfold runOps at h
    dsimp only at h
    split at h
    next => exact Except.noConfusion h
    next kept heq =>
      injection h with h
      subst h
      simp only [List.count_append, createDummyNodesOps, createDummyWaysOps,
        createDummyRelationsOps]
      rw [getIdsForGeometryUpdate_ops_count, getReferencedRelations_ops_count,
        getReferencedWays_ops_count, getReferencedNodes_ops_count,
        opsFor_count_clearCache,
        count_flatten_const_zero ClientOp.clearCache fetchOps (by decide),
        count_flatten_const_zero ClientOp.clearCache fetchOps (by decide),
        deleteElementsOps_count _ ClientOp.clearCache (by decide),
        createAndRunInsertQueryOps_count _ ClientOp.clearCache (by decide)]
  · intro st
    exact deleteElementsOps_count st ClientOp.runQuery (by decide)
  · intro triples
    exact createAndRunInsertQueryOps_count triples ClientOp.runQuery (by decide)

/-- C4, witness: the amended statement at the empty change set, whose
completed run has the empty client trace. -/
theorem c4_no_clear_cache_witness :
    List.count ClientOp.clearCache ([] : List ClientOp) = 0 :=
  c4_no_clear_cache.1 emptyOdf emptyHandlerState [] [] rfl

/-- C3: in the phase-7 triple filter, a line whose subject lies in the
`osmnode:`/`osm2rdfgeom:osm_node_` namespace is kept iff its id is in
`createdNodes ∪ modifiedNodes`; a line whose subject lies in the
`osmway:`/`osm2rdfgeom:osm_wayarea_` namespace is kept iff its id is in
`createdWays ∪ modifiedWays ∪ waysToUpdateGeometry`; a line whose subject
lies in the `osmrel:`/`osm2rdfgeom:osm_relarea_` namespace is kept iff its id
is in `createdRelations ∪ modifiedRelations ∪ relationsToUpdateGeometry` —
for any contents of the `relevantMemberIds` state. -/
theorem c3_filter_namespaces (st : OsmChangeHandlerState) (mem : List String)
    (line s p o : String)
    (htok : tokens3 line = some (s, p, o))
    (hat : strStartsWith line "@" = false) :
    ((strStartsWith s "osmnode:" || strStartsWith s "osm2rdfgeom:osm_node_") = true →
      ∀ n : Nat, nodeIdOfLine line = some n → n < 2 ^ 63 →
        ((processLine (insertSetsOf st) mem line).map Prod.fst = Except.ok true ↔
          ((n : Int) ∈ st.createdNodes ∨ (n : Int) ∈ st.modifiedNodes))) ∧
    ((strStartsWith s "osmnode:" || strStartsWith s "osm2rdfgeom:osm_node_") = false →
      (strStartsWith s "osmway:" || strStartsWith s "osm2rdfgeom:osm_wayarea_") = true →
      ∀ n : Nat, wayIdOfLine line = some n → n < 2 ^ 63 →
        ((processLine (insertSetsOf st) mem line).map Prod.fst = Except.ok true ↔
          ((n : Int) ∈ st.createdWays ∨ (n : Int) ∈ st.modifiedWays ∨
            (n : Int) ∈ st.waysToUpdateGeometry))) ∧
    ((strStartsWith s "osmnode:" || strStartsWith s "osm2rdfgeom:osm_node_") = false →
      (strStartsWith s "osmway:" || strStartsWith s "osm2rdfgeom:osm_wayarea_") = false →
      (strStartsWith s "osmrel:" || strStartsWith s "osm2rdfgeom:osm_relarea_") = true →
      ∀ n : Nat, relIdOfLine line = some n → n < 2 ^ 63 →
        ((processLine (insertSetsOf st) mem line).map Prod.fst = Except.ok true ↔
          ((n : Int) ∈ st.createdRelations ∨ (n : Int) ∈ st.modifiedRelations ∨
            (n : Int) ∈ st.relationsToUpdateGeometry))) := by
  refine ⟨?_, ?_, ?_⟩
  · intro hg n hid hlt
    have hred : processLine (insertSetsOf st) mem line =
        (if (n : Int) ∈ (insertSetsOf st).nodes then Except.ok (true, mem)
          else Except.ok (false, mem)) := by
      simp [processLine, hat, htok, hg, hid, hlt]
      intro hge
      exact absurd hge (by omega)
    have hmem : ((n : Int) ∈ (insertSetsOf st).nodes) ↔
        ((n : Int) ∈ st.createdNodes ∨ (n : Int) ∈ st.modifiedNodes) := by
      simp [insertSetsOf, mem_setUnion]
    rw [hred, ← hmem]
    by_cases hn : (n : Int) ∈ (insertSetsOf st).nodes
    · simp [hn, Except.map]
    · simp [hn, Except.map]
  · intro hg0 hg n hid hlt
    have hred : processLine (insertSetsOf st) mem line =
        (if (n : Int) ∈ (insertSetsOf st).ways then
            Except.ok (true, if p = "osmway:node" then (if o ∈ mem then mem else o :: mem) else mem)
          else Except.ok (false, mem)) := by
      simp [processLine, hat, htok, hg0, hg, hid, hlt]
      intro hge
      exact absurd hge (by omega)
    have hmem : ((n : Int) ∈ (insertSetsOf st).ways) ↔
        ((n : Int) ∈ st.createdWays ∨ (n : Int) ∈ st.modifiedWays ∨
          (n : Int) ∈ st.waysToUpdateGeometry) := by
      simp [insertSetsOf, mem_setUnion]
      tauto
    rw [hred, ← hmem]
    by_cases hn : (n : Int) ∈ (insertSetsOf st).ways
    · simp [hn, Except.map]
    · simp [hn, Except.map]
  · intro hg0 hg1 hg n hid hlt
    have hred : processLine (insertSetsOf st) mem line =
        (if (n : Int) ∈ (insertSetsOf st).rels then
            Except.ok (true, if p = "osmrel:member" then (if o ∈ mem then mem else o :: mem) else mem)
          else Except.ok (false, mem)) := by
      simp [processLine, hat, htok, hg0, hg1, hg, hid, hlt]
      intro hge
      exact absurd hge (by omega)
    have hmem : ((n : Int) ∈ (insertSetsOf st).rels) ↔
        ((n : Int) ∈ st.createdRelations ∨ (n : Int) ∈ st.modifiedRelations ∨
          (n : Int) ∈ st.relationsToUpdateGeometry) := by
      simp [insertSetsOf, mem_setUnion]
      tauto
    rw [hred, ← hmem]
    by_cases hn : (n : Int) ∈ (insertSetsOf st).rels
    · simp [hn, Except.map]
    · simp [hn, Except.map]

/-- C3, witness: the node-namespace case at a concrete triple line for a
change set that created node 42. -/
theorem c3_filter_namespaces_witness :
    (processLine (insertSetsOf c3St) [] c3Line).map Prod.fst = Except.ok true :=
  ((c3_filter_namespaces c3St [] c3Line "osmnode:42" "geo:hasGeometry"
      "osm2rdfgeom:osm_node_42" (by decide) (by decide)).1
    (by decide) 42 (by decide) (by decide)).mpr (Or.inl (by decide))
